import Mathlib

/-!
Verification of the OpenAPIMCP server (`mcp-server/src/main.py`).

The repository is a FastAPI application that fetches a remote OpenAPI
document, converts it into a FastMCP server exposing each operation as a
tool, mounts that server under a per-request path, and returns its URL.

We give a shallow embedding of the decision logic of `main.py`:
JSON/YAML-decoded documents become the inductive `JValue` type; Python
dicts become association lists preserving insertion order (Python dict
assignment replaces in place, otherwise appends); the two external
effects of the `/generate` endpoint - the HTTP fetch of the spec and the
SDK call `FastMCP.from_openapi` - become explicit `Except` parameters of
the embedded handler; `secrets.token_hex(4)` becomes an explicit token
parameter; process state (the `RUNNING_SERVERS` registry and the set of
`app.mount` calls) becomes an explicit `GenState` record threaded through
the handler.
-/

/-- A JSON value, the result of decoding the fetched OpenAPI document
(`resp.json()` or `yaml.safe_load`).  Objects are association lists in
insertion order. -/
inductive JValue where
  | null : JValue
  | bool : Bool → JValue
  | num : Int → JValue
  | str : String → JValue
  | arr : List JValue → JValue
  | obj : List (String × JValue) → JValue

/-- Python truthiness of a decoded JSON value (`None`, `False`, `0`, `""`,
`[]`, `{}` are falsy). -/
def truthy : JValue → Bool
  | JValue.null => false
  | JValue.bool b => b
  | JValue.num n => decide (n ≠ 0)
  | JValue.str s => !s.isEmpty
  | JValue.arr l => !l.isEmpty
  | JValue.obj l => !l.isEmpty

/-- First-match lookup in an association list (Python `d[k]` / `d.get(k)`
on a dict; dicts have no duplicate keys, so first match is the match). -/
def dictLookup (k : String) : List (String × α) → Option α
  | [] => none
  | (k', v) :: rest => if k' = k then some v else dictLookup k rest

/-- Python dict assignment `d[k] = v`: replace in place when the key
exists, otherwise append. -/
def dictInsert (l : List (String × α)) (k : String) (v : α) : List (String × α) :=
  match l with
  | [] => [(k, v)]
  | (k', v') :: rest => if k' = k then (k, v) :: rest else (k', v') :: dictInsert rest k v

/-- `d.get(k)` on a JSON value: key lookup when it is an object, `None`
otherwise. -/
def jGet : JValue → String → Option JValue
  | JValue.obj kvs, k => dictLookup k kvs
  | _, _ => none

/-- Navigation `(spec / k1 / k2 / ...).open()` on a `SchemaPath`:
successive key lookups, `none` modelling the `KeyError` raised when a
step is missing or the current node is not an object. -/
def specOpen (spec : JValue) (keys : List String) : Option JValue :=
  keys.foldlM jGet spec

/-- The scheme and network-location components of `urllib.parse.urlparse`
applied to a URL string.  The parser itself is standard-library code, so
it enters the embedding as an abstract function `String → URLParts`. -/
structure URLParts where
  scheme : String
  netloc : String

/-- `_derive_base_url(openapi_spec, openapi_url)` from `main.py`: return
`servers[0]["url"]` when `servers` is a non-empty list whose first entry
is a dict with a non-empty string `url`, otherwise
`f"{parsed.scheme}://{parsed.netloc}"` of the spec URL.  The Python
`openapi_spec.get("servers") or []` replaces any falsy value by `[]`, and
`if servers and isinstance(servers, list)` keeps only truthy lists. -/
def derive_base_url (urlparse : String → URLParts) (openapi_spec : JValue)
    (openapi_url : String) : String :=
  let fallback := (urlparse openapi_url).scheme ++ "://" ++ (urlparse openapi_url).netloc
  let servers0 := (jGet openapi_spec "servers").getD JValue.null
  let servers := if truthy servers0 then servers0 else JValue.arr []
  match servers with
  | JValue.arr (first :: _) =>
    match first with
    | JValue.obj kvs =>
      match dictLookup "url" kvs with
      | some (JValue.str u) => if u.isEmpty then fallback else u
      | _ => fallback
    | _ => fallback
  | _ => fallback

/-- The behaviour claim C7 ascribes to `_derive_base_url`, written from
the claim's words: the `url` string of the first entry of the spec's
`servers` list when that entry is a dictionary whose `url` value is a
non-empty string, and otherwise `scheme://netloc` of the spec URL. -/
def derive_base_url_claimed (urlparse : String → URLParts) (openapi_spec : JValue)
    (openapi_url : String) : String :=
  let fallback := (urlparse openapi_url).scheme ++ "://" ++ (urlparse openapi_url).netloc
  match jGet openapi_spec "servers" with
  | some (JValue.arr (JValue.obj kvs :: _)) =>
    match dictLookup "url" kvs with
    | some (JValue.str u) => if u.isEmpty then fallback else u
    | _ => fallback
  | _ => fallback

/-- Claim C7: for every spec dictionary and spec URL, `_derive_base_url`
returns the `url` string of the first entry of the spec's `servers` list
when that entry is a dictionary whose `url` value is a non-empty string,
and otherwise returns `scheme://netloc` of the spec URL.  The embedded
function is total by construction (every Python access in the body is a
non-raising `.get`/index on checked shapes, and the remaining cases fall
through to the `urlparse` fallback), so it never raises for any
dictionary input. -/
theorem derive_base_url_matches_claim (urlparse : String → URLParts)
    (openapi_spec : JValue) (openapi_url : String) :
    derive_base_url urlparse openapi_spec openapi_url =
      derive_base_url_claimed urlparse openapi_spec openapi_url := by
  unfold derive_base_url derive_base_url_claimed
  cases h : jGet openapi_spec "servers" with
  | none => rfl
  | some v =>
    cases v with
    | null => rfl
    | bool b => cases b <;> rfl
    | num n =>
      by_cases hn : n = 0
      · simp [hn, truthy]
      · simp [truthy, hn]
    | str s => cases hs : truthy (JValue.str s) <;> simp [hs]
    | arr l =>
      cases l with
      | nil => rfl
      | cons first rest =>
        cases first with
        | obj kvs => simp [truthy]
        | null => simp [truthy]
        | bool b => simp [truthy]
        | num n => simp [truthy]
        | str s => simp [truthy]
        | arr l2 => simp [truthy]
    | obj kvs => cases kvs <;> rfl

/-- Python `str.lower()`, applied character by character (HTTP method
names are ASCII, where `Char.toLower` agrees with Python). -/
def strLower (s : String) : String := ⟨s.data.map Char.toLower⟩

/-- The fields of the SDK's `HTTPRoute` that `main.py` reads or writes:
the OpenAPI path and HTTP method locating the operation in the document,
the route's `parameter_map` (a dict from argument name to parameter
metadata) and its `flat_param_schema` (a JSON-schema dict). -/
structure HTTPRoute where
  path : String
  method : String
  parameter_map : List (String × JValue)
  flat_param_schema : List (String × JValue)

/-- The scheme names collected from one OpenAPI `security` value by the
loops in `get_security_schemes_for_route`: when the value is a list, the
keys of each dict entry; otherwise nothing. -/
def securityNames (v : JValue) : Finset String :=
  match v with
  | JValue.arr reqs =>
    reqs.foldl
      (fun acc req =>
        match req with
        | JValue.obj kvs => kvs.foldl (fun acc kv => insert kv.1 acc) acc
        | _ => acc)
      (∅ : Finset String)
  | _ => ∅

/-- The operation-level `security` value of a route:
`(spec / "paths" / route.path / route.method.lower() / "security").open()`,
`none` when that raises `KeyError`. -/
def operationSecurity (spec : JValue) (route : HTTPRoute) : Option JValue :=
  specOpen spec ["paths", route.path, strLower route.method, "security"]

/-- The document's top-level `security` value: `(spec / "security").open()`,
`none` when that raises `KeyError`. -/
def topLevelSecurity (spec : JValue) : Option JValue :=
  specOpen spec ["security"]

/-- `get_security_schemes_for_route(route)` from `main.py`.  When the
operation-level `security` key opens, the names collected from it are
returned immediately (the `return schemes` sits inside the `with` block,
so even an empty or non-list value short-circuits); only when the open
raises `KeyError` is the document's top-level `security` consulted. -/
def get_security_schemes_for_route (spec : JValue) (route : HTTPRoute) : Finset String :=
  match specOpen spec ["paths", route.path, strLower route.method, "security"] with
  | some sec =>
    (match sec with
     | JValue.arr reqs =>
       reqs.foldl
         (fun acc req =>
           match req with
           | JValue.obj kvs => kvs.foldl (fun acc kv => insert kv.1 acc) acc
           | _ => acc)
         (∅ : Finset String)
     | _ => ∅)
  | none =>
    match specOpen spec ["security"] with
    | some sec =>
      (match sec with
       | JValue.arr reqs =>
         reqs.foldl
           (fun acc req =>
             match req with
             | JValue.obj kvs => kvs.foldl (fun acc kv => insert kv.1 acc) acc
             | _ => acc)
           (∅ : Finset String)
       | _ => ∅)
    | none => ∅

/-- Claim C8: `get_security_schemes_for_route` returns the scheme names
of the operation-level `security` entry whenever that key exists in the
spec - in particular the empty set when the operation-level list is empty
or malformed - and consults the document's top-level `security` only when
the operation-level key is absent, so operation-level security always
shadows top-level security. -/
theorem get_security_schemes_shadowing (spec : JValue) (route : HTTPRoute) :
    (∀ v, operationSecurity spec route = some v →
      get_security_schemes_for_route spec route = securityNames v) ∧
    (operationSecurity spec route = none →
      get_security_schemes_for_route spec route =
        (topLevelSecurity spec).elim ∅ securityNames) := by
  constructor
  · intro v hv
    unfold get_security_schemes_for_route securityNames
    unfold operationSecurity at hv
    rw [hv]
  · intro hv
    unfold get_security_schemes_for_route
    unfold operationSecurity at hv
    rw [hv]
    unfold topLevelSecurity
    cases h : specOpen spec ["security"] with
    | none => rfl
    | some sec => cases sec <;> rfl

/-- A concrete OpenAPI document whose `/a` `get` operation carries an
empty operation-level `security` list while the document's top level
requires the `apiKey` scheme. -/
def shadowSpec : JValue :=
  JValue.obj
    [("paths", JValue.obj
        [("/a", JValue.obj
            [("get", JValue.obj [("security", JValue.arr [])])])]),
     ("security", JValue.arr [JValue.obj [("apiKey", JValue.arr [])]])]

/-- The `/a` `get` route of `shadowSpec`, with no parameters. -/
def shadowRoute : HTTPRoute := ⟨"/a", "GET", [], []⟩

/-- Witness for claim C8: on `shadowSpec`, the empty operation-level
`security` list yields the empty scheme set even though the top level
names `apiKey`. -/
theorem get_security_schemes_shadowing_witness :
    get_security_schemes_for_route shadowSpec shadowRoute = ∅ :=
  (get_security_schemes_shadowing shadowSpec shadowRoute).1 (JValue.arr []) rfl

/-- The JSON schema that `customize_components` installs for the
`Authorization` parameter when it is absent. -/
def authSchema : JValue :=
  JValue.obj
    [("type", JValue.str "string"),
     ("description", JValue.str "Authorization header (e.g., \x27Bearer <token>\x27).")]

/-- The `parameter_map` entry that `customize_components` installs for
`Authorization`: a header parameter named `Authorization`. -/
def authMapEntry : JValue :=
  JValue.obj
    [("location", JValue.str "header"),
     ("openapi_name", JValue.str "Authorization")]

/-- The default parameter schema used when a tool has no parameters:
`{"type": "object", "properties": {}}`. -/
def defaultToolParams : List (String × JValue) :=
  [("type", JValue.str "object"), ("properties", JValue.obj [])]

/-- The fields of an SDK component that `customize_components` reads or
writes: its tags, its `parameters` JSON-schema dict (absent for `None`),
and whether it is an `OpenAPITool` (the `isinstance` test; only tools
carry the `parameters` attribute used here). -/
structure OpenAPIComponent where
  isTool : Bool
  tags : Finset String
  parameters : Option (List (String × JValue))

/-- `component.parameters or {"type": "object", "properties": {}}`:
`None` and the empty dict are falsy and give the default. -/
def effectiveParams (c : OpenAPIComponent) : List (String × JValue) :=
  match c.parameters with
  | some p => if p.isEmpty then defaultToolParams else p
  | none => defaultToolParams

/-- `d.setdefault("properties", {})` followed by use of the returned
value as a dict: yields the entries of the existing `"properties"` object
together with the (possibly extended) outer dict.  A present
non-object value cannot occur: the SDK builds `parameters` and
`flat_param_schema` as JSON schemas, where `properties` is an object. -/
def setdefaultProps (d : List (String × JValue)) : List (String × JValue) × List (String × JValue) :=
  match dictLookup "properties" d with
  | some (JValue.obj kvs) => (kvs, d)
  | some _ => ([], d)
  | none => ([], d ++ [("properties", JValue.obj [])])

/-- `if "Authorization" not in props: props["Authorization"] = {...}`:
append the default `Authorization` schema when the key is absent. -/
def ensureAuthProp (props : List (String × JValue)) : List (String × JValue) :=
  match dictLookup "Authorization" props with
  | some _ => props
  | none => props ++ [("Authorization", authSchema)]

/-- `customize_components(route, component)` from `main.py`, returning
the updated route and component.  Every component is tagged `"openapi"`.
When the route has at least one security scheme and the component is an
`OpenAPITool`, the tool's parameter schema, the route's `parameter_map`
and the route's `flat_param_schema` are each given an `Authorization`
entry when absent.  Python mutates `props` through the alias returned by
`setdefault`; the functional model writes the updated object back under
the `"properties"` key, which is the same final dict. -/
def customize_components (spec : JValue) (route : HTTPRoute) (c : OpenAPIComponent) :
    HTTPRoute × OpenAPIComponent :=
  let c1 : OpenAPIComponent := { c with tags := insert "openapi" c.tags }
  if get_security_schemes_for_route spec route = ∅ then (route, c1)
  else if c1.isTool then
    let sd := setdefaultProps (effectiveParams c1)
    let params1 := dictInsert sd.2 "properties" (JValue.obj (ensureAuthProp sd.1))
    let c2 : OpenAPIComponent := { c1 with parameters := some params1 }
    let pmap :=
      match dictLookup "Authorization" route.parameter_map with
      | some _ => route.parameter_map
      | none => route.parameter_map ++ [("Authorization", authMapEntry)]
    let fsd := setdefaultProps route.flat_param_schema
    let flat := dictInsert fsd.2 "properties" (JValue.obj (ensureAuthProp fsd.1))
    ({ route with parameter_map := pmap, flat_param_schema := flat }, c2)
  else (route, c1)

/-- The entries of the `properties` object of a component's parameter
schema (empty when the schema or the key is absent). -/
def toolProps (c : OpenAPIComponent) : List (String × JValue) :=
  match c.parameters with
  | some params =>
    match dictLookup "properties" params with
    | some (JValue.obj kvs) => kvs
    | _ => []
  | none => []

theorem dictLookup_dictInsert_self (l : List (String × α)) (k : String) (v : α) :
    dictLookup k (dictInsert l k v) = some v := by
  induction l with
  | nil => simp [dictInsert, dictLookup]
  | cons hd tl ih =>
    obtain ⟨k', v'⟩ := hd
    by_cases h : k' = k
    · simp [dictInsert, h, dictLookup]
    · simp [dictInsert, h, dictLookup, ih]

theorem dictLookup_dictInsert_ne (l : List (String × α)) (k k' : String) (v : α)
    (h : k' ≠ k) : dictLookup k' (dictInsert l k v) = dictLookup k' l := by
  induction l with
  | nil => simp [dictInsert, dictLookup, Ne.symm h]
  | cons hd tl ih =>
    obtain ⟨k'', v''⟩ := hd
    by_cases hk : k'' = k
    · subst hk
      simp [dictInsert, dictLookup, Ne.symm h]
    · simp only [dictInsert, if_neg hk, dictLookup]
      by_cases hk2 : k'' = k'
      · simp [hk2]
      · simp [hk2, ih]

theorem dictLookup_append_single (l : List (String × α)) (k : String) (v : α)
    (h : dictLookup k l = none) : dictLookup k (l ++ [(k, v)]) = some v := by
  induction l with
  | nil => simp [dictLookup]
  | cons hd tl ih =>
    obtain ⟨k', v'⟩ := hd
    by_cases hk : k' = k
    · simp [dictLookup, hk] at h
    · simp only [dictLookup, if_neg hk] at h ⊢
      simp [List.cons_append, dictLookup, if_neg hk, ih h]

theorem dictLookup_ensureAuthProp (props : List (String × JValue))
    (h : dictLookup "Authorization" props = none) :
    dictLookup "Authorization" (ensureAuthProp props) = some authSchema := by
  unfold ensureAuthProp
  rw [h]
  exact dictLookup_append_single props "Authorization" authSchema h

theorem setdefaultProps_effectiveParams (c : OpenAPIComponent) :
    (setdefaultProps (effectiveParams c)).1 = toolProps c := by
  unfold effectiveParams toolProps
  cases hp : c.parameters with
  | none => rfl
  | some p =>
    cases p with
    | nil => rfl
    | cons hd tl =>
      cases hq : dictLookup "properties" (hd :: tl) with
      | none => simp [setdefaultProps, hq]
      | some v => cases v <;> simp [setdefaultProps, hq]

theorem toolProps_customized (spec : JValue) (route : HTTPRoute) (c : OpenAPIComponent)
    (hne : get_security_schemes_for_route spec route ≠ ∅) (htool : c.isTool = true) :
    toolProps (customize_components spec route c).2 = ensureAuthProp (toolProps c) := by
  have hc1 : ({ c with tags := insert "openapi" c.tags } : OpenAPIComponent).isTool = true :=
    htool
  simp only [customize_components]
  rw [if_neg hne, if_pos hc1]
  have hsd : (setdefaultProps (effectiveParams
      ({ c with tags := insert "openapi" c.tags } : OpenAPIComponent))).1 = toolProps c :=
    setdefaultProps_effectiveParams _
  simp only [toolProps, dictLookup_dictInsert_self, hsd]

theorem parameter_map_customized (spec : JValue) (route : HTTPRoute) (c : OpenAPIComponent)
    (hne : get_security_schemes_for_route spec route ≠ ∅) (htool : c.isTool = true)
    (hmap : dictLookup "Authorization" route.parameter_map = none) :
    (customize_components spec route c).1.parameter_map =
      route.parameter_map ++ [("Authorization", authMapEntry)] := by
  have hc1 : ({ c with tags := insert "openapi" c.tags } : OpenAPIComponent).isTool = true :=
    htool
  simp only [customize_components]
  rw [if_neg hne, if_pos hc1]
  simp only [hmap]

/-- Claim C1: for every route with a declared security requirement
(operation-level or, failing that, top-level - formalised as a non-empty
security-scheme set, which is how `customize_components` tests it), the
generated tool's parameter schema includes an `Authorization` header
parameter of type string and the route's `parameter_map` records it as a
header parameter named `Authorization` (whenever the SDK-generated tool
did not already carry an `Authorization` entry, which the code leaves
untouched); routes with no security requirement are left with their
parameters, parameter map and flat schema unchanged, apart from the
component being tagged `"openapi"`. -/
theorem customize_components_auth (spec : JValue) (route : HTTPRoute) (c : OpenAPIComponent) :
    (get_security_schemes_for_route spec route ≠ ∅ → c.isTool = true →
      dictLookup "Authorization" (toolProps c) = none →
      dictLookup "Authorization" route.parameter_map = none →
      dictLookup "Authorization" (toolProps (customize_components spec route c).2) =
          some authSchema ∧
      dictLookup "Authorization" (customize_components spec route c).1.parameter_map =
          some authMapEntry) ∧
    (get_security_schemes_for_route spec route = ∅ →
      (customize_components spec route c).2.parameters = c.parameters ∧
      (customize_components spec route c).1 = route ∧
      (customize_components spec route c).2.isTool = c.isTool ∧
      (customize_components spec route c).2.tags = insert "openapi" c.tags) := by
  constructor
  · intro hne htool hprop hmap
    constructor
    · rw [toolProps_customized spec route c hne htool]
      exact dictLookup_ensureAuthProp (toolProps c) hprop
    · rw [parameter_map_customized spec route c hne htool hmap]
      exact dictLookup_append_single route.parameter_map "Authorization" authMapEntry hmap
  · intro hz
    simp only [customize_components]
    rw [if_pos hz]
    exact ⟨rfl, rfl, rfl, rfl⟩

/-- An OpenAPI document whose only security information is a top-level
requirement naming the `apiKey` scheme. -/
def securedSpec : JValue :=
  JValue.obj [("security", JValue.arr [JValue.obj [("apiKey", JValue.arr [])]])]

/-- A route of `securedSpec` with empty parameter metadata. -/
def plainRoute : HTTPRoute := ⟨"/a", "get", [], []⟩

/-- An SDK tool component with no parameters yet. -/
def plainTool : OpenAPIComponent := ⟨true, ∅, none⟩

/-- Witness for claim C1: on a concrete secured route and tool, the
customized schema holds the string-typed `Authorization` property and the
parameter map records the `Authorization` header. -/
theorem customize_components_auth_witness :
    dictLookup "Authorization" (toolProps (customize_components securedSpec plainRoute plainTool).2) =
        some authSchema ∧
    dictLookup "Authorization" (customize_components securedSpec plainRoute plainTool).1.parameter_map =
        some authMapEntry :=
  (customize_components_auth securedSpec plainRoute plainTool).1 (by decide) rfl rfl rfl

/-- A FastAPI `HTTPException`: status code and detail text. -/
structure HTTPError where
  status : Nat
  detail : String

/-- One `RUNNING_SERVERS` entry, `{"mount_path": ..., "mcp": ...}`.  The
`FastMCP` handle itself is SDK state, so its type is a parameter. -/
structure ServerEntry (MCP : Type) where
  mount_path : String
  mcp : MCP

/-- Process state touched by `/generate`: the `RUNNING_SERVERS` registry
(a Python dict, hence an insertion-ordered association list) and the list
of paths passed to `app.mount`. -/
structure GenState (MCP : Type) where
  running : List (String × ServerEntry MCP)
  mounts : List String

/-- Python `str.rstrip("/")`: drop every trailing slash. -/
def rstripSlash (s : String) : String :=
  ⟨(s.data.reverse.dropWhile (fun ch => ch == '/')).reverse⟩

/-- The `generate` handler of `main.py`.  Its two effectful prefixes are
explicit arguments: `fetchResult` is the outcome of downloading and
decoding the spec (the whole first `try` block, whose failure message is
`str(e)` of the raised exception), and `buildMCP` is
`_build_mcp_from_openapi` (dominated by the SDK call
`FastMCP.from_openapi`, so its outcome on the fetched spec is abstract).
`tokenHex` is the value of `secrets.token_hex(4)` for this request and
`requestBaseUrl` is `str(request.base_url)`.  On success the handler
mounts the new app, records it in the registry, and returns the JSON body
`{"server_id": ..., "mcp_url": ...}` with the updated state; the state is
mutated only after both `try` blocks, so a failure leaves it unchanged. -/
def generate {MCP : Type} (fetchResult : Except String JValue)
    (buildMCP : JValue → Except String MCP) (tokenHex : String)
    (requestBaseUrl : String) (st : GenState MCP) :
    Except HTTPError (JValue × GenState MCP) :=
  match fetchResult with
  | Except.error e => Except.error ⟨400, "Failed to fetch OpenAPI: " ++ e⟩
  | Except.ok openapi_spec =>
    match buildMCP openapi_spec with
    | Except.error e => Except.error ⟨400, "Failed to build MCP: " ++ e⟩
    | Except.ok mcp =>
      let server_id := "srv-" ++ tokenHex
      let mount_path := "/mcp/" ++ server_id
      let st' : GenState MCP :=
        { running := dictInsert st.running server_id ⟨mount_path, mcp⟩,
          mounts := st.mounts ++ [mount_path] }
      let base := rstripSlash requestBaseUrl
      let mcp_url := base ++ mount_path ++ "/"
      Except.ok
        (JValue.obj
          [("server_id", JValue.str server_id), ("mcp_url", JValue.str mcp_url)],
         st')

/-- The HTTP status FastAPI sends for a handler outcome: the
`HTTPException` status on failure, 200 for a returned dict. -/
def responseStatus {MCP : Type} : Except HTTPError (JValue × GenState MCP) → Nat
  | Except.error e => e.status
  | Except.ok _ => 200

/-- The `health` handler of `main.py`: a constant payload, whatever the
process state. -/
def health {MCP : Type} (_st : GenState MCP) : JValue :=
  JValue.obj [("status", JValue.str "ok")]

/-- The per-request inputs of one `/generate` call: fetch outcome, build
outcome, generated token, request base URL. -/
structure GenCall (MCP : Type) where
  fetchResult : Except String JValue
  buildMCP : JValue → Except String MCP
  tokenHex : String
  requestBaseUrl : String

/-- The `server_id` a call produces when it succeeds. -/
def srvId {MCP : Type} (c : GenCall MCP) : String := "srv-" ++ c.tokenHex

/-- The process state after one `/generate` call: unchanged when the
handler raises, the returned state when it succeeds. -/
def runCall {MCP : Type} (c : GenCall MCP) (st : GenState MCP) : GenState MCP :=
  match generate c.fetchResult c.buildMCP c.tokenHex c.requestBaseUrl st with
  | Except.error _ => st
  | Except.ok (_, st') => st'

/-- The process state after a sequence of `/generate` calls. -/
def runCalls {MCP : Type} (calls : List (GenCall MCP)) (st : GenState MCP) : GenState MCP :=
  calls.foldl (fun s c => runCall c s) st

/-- Claim C2: whenever the spec fetch or the spec-to-server conversion
fails, `/generate` fails with HTTP 400 whose detail text contains the
underlying exception's message (the detail is literally a fixed prefix
followed by that message), and these are the only two failure points:
when both steps succeed the handler returns normally. -/
theorem generate_error_translation {MCP : Type} (fetchResult : Except String JValue)
    (buildMCP : JValue → Except String MCP) (tokenHex requestBaseUrl : String)
    (st : GenState MCP) :
    (∀ e, fetchResult = Except.error e →
      generate fetchResult buildMCP tokenHex requestBaseUrl st =
        Except.error ⟨400, "Failed to fetch OpenAPI: " ++ e⟩) ∧
    (∀ spec e, fetchResult = Except.ok spec → buildMCP spec = Except.error e →
      generate fetchResult buildMCP tokenHex requestBaseUrl st =
        Except.error ⟨400, "Failed to build MCP: " ++ e⟩) ∧
    (∀ spec mcp, fetchResult = Except.ok spec → buildMCP spec = Except.ok mcp →
      ∃ body st', generate fetchResult buildMCP tokenHex requestBaseUrl st =
        Except.ok (body, st')) := by
  refine ⟨?_, ?_, ?_⟩
  · intro e he
    simp only [generate, he]
  · intro spec e hf hb
    simp only [generate, hf, hb]
  · intro spec mcp hf hb
    simp only [generate, hf, hb]
    exact ⟨_, _, rfl⟩

/-- Witness for claim C2: a concrete failed fetch yields the 400 error
carrying the exception text. -/
theorem generate_error_translation_witness :
    generate (Except.error "boom") (fun _ => Except.ok (0 : Nat)) "00" "http://h/"
        ⟨[], []⟩ =
      Except.error ⟨400, "Failed to fetch OpenAPI: boom"⟩ :=
  (generate_error_translation (Except.error "boom") (fun _ => Except.ok 0) "00" "http://h/"
      ⟨[], []⟩).1 "boom" rfl

/-- Claim C4: when the fetch and the conversion both succeed, `/generate`
returns HTTP 200 with a JSON body holding exactly the keys `server_id`
and `mcp_url`, where `mcp_url` is the request base URL without trailing
slashes followed by `/mcp/`, the server id, and a final `/`. -/
theorem generate_success_response {MCP : Type} (fetchResult : Except String JValue)
    (buildMCP : JValue → Except String MCP) (tokenHex requestBaseUrl : String)
    (st : GenState MCP) (spec : JValue) (mcp : MCP)
    (hf : fetchResult = Except.ok spec) (hb : buildMCP spec = Except.ok mcp) :
    responseStatus (generate fetchResult buildMCP tokenHex requestBaseUrl st) = 200 ∧
    ∃ st', generate fetchResult buildMCP tokenHex requestBaseUrl st =
      Except.ok
        (JValue.obj
          [("server_id", JValue.str ("srv-" ++ tokenHex)),
           ("mcp_url", JValue.str
              (rstripSlash requestBaseUrl ++ "/mcp/" ++ ("srv-" ++ tokenHex) ++ "/"))],
         st') := by
  simp only [generate, hf, hb, responseStatus]
  refine ⟨trivial,
    ⟨{ running := dictInsert st.running ("srv-" ++ tokenHex)
          ⟨"/mcp/" ++ ("srv-" ++ tokenHex), mcp⟩,
       mounts := st.mounts ++ ["/mcp/" ++ ("srv-" ++ tokenHex)] }, ?_⟩⟩
  rw [String.append_assoc (rstripSlash requestBaseUrl) "/mcp/" ("srv-" ++ tokenHex)]

/-- Witness for claim C4: a concrete successful call returns the body
with the mount URL under the stripped base URL. -/
theorem generate_success_response_witness :
    responseStatus (generate (Except.ok (JValue.obj []))
        (fun _ => Except.ok (7 : Nat)) "ab" "http://h/" ⟨[], []⟩) = 200 ∧
    ∃ st', generate (Except.ok (JValue.obj [])) (fun _ => Except.ok (7 : Nat)) "ab"
        "http://h/" ⟨[], []⟩ =
      Except.ok
        (JValue.obj
          [("server_id", JValue.str ("srv-" ++ "ab")),
           ("mcp_url", JValue.str
              (rstripSlash "http://h/" ++ "/mcp/" ++ ("srv-" ++ "ab") ++ "/"))],
         st') :=
  generate_success_response (Except.ok (JValue.obj [])) (fun _ => Except.ok 7) "ab"
    "http://h/" ⟨[], []⟩ (JValue.obj []) 7 rfl rfl

/-- Claim C5: `/health` returns the fixed payload whatever the process
state, in particular after any sequence of prior `/generate` calls. -/
theorem health_constant {MCP : Type} (calls : List (GenCall MCP)) (st : GenState MCP) :
    health (runCalls calls st) = JValue.obj [("status", JValue.str "ok")] := rfl

/-- Claim C6: a successful `/generate` call returns HTTP 200 and
registers the new sub-application: afterwards the registry maps the
returned `server_id` to the entry whose `mount_path` is `/mcp/` plus the
id and whose `mcp` field is the server built from the fetched spec, every
other registry entry is untouched, and exactly the new mount path is
added to the mounted apps. -/
theorem generate_success_registers {MCP : Type} (fetchResult : Except String JValue)
    (buildMCP : JValue → Except String MCP) (tokenHex requestBaseUrl : String)
    (st : GenState MCP) (spec : JValue) (mcp : MCP)
    (hf : fetchResult = Except.ok spec) (hb : buildMCP spec = Except.ok mcp) :
    responseStatus (generate fetchResult buildMCP tokenHex requestBaseUrl st) = 200 ∧
    ∃ body st', generate fetchResult buildMCP tokenHex requestBaseUrl st =
        Except.ok (body, st') ∧
      dictLookup ("srv-" ++ tokenHex) st'.running =
        some ⟨"/mcp/" ++ ("srv-" ++ tokenHex), mcp⟩ ∧
      (∀ k, k ≠ "srv-" ++ tokenHex →
        dictLookup k st'.running = dictLookup k st.running) ∧
      st'.mounts = st.mounts ++ ["/mcp/" ++ ("srv-" ++ tokenHex)] := by
  simp only [generate, hf, hb, responseStatus]
  refine ⟨trivial, _, _, rfl, ?_, ?_, rfl⟩
  · exact dictLookup_dictInsert_self st.running ("srv-" ++ tokenHex) _
  · intro k hk
    exact dictLookup_dictInsert_ne st.running ("srv-" ++ tokenHex) k _ hk

/-- Witness for claim C6: a concrete successful call registers exactly
its own entry. -/
theorem generate_success_registers_witness :
    responseStatus (generate (Except.ok (JValue.obj []))
        (fun _ => Except.ok (7 : Nat)) "ab" "http://h/" ⟨[], []⟩) = 200 ∧
    ∃ body st', generate (Except.ok (JValue.obj [])) (fun _ => Except.ok (7 : Nat))
        "ab" "http://h/" ⟨[], []⟩ = Except.ok (body, st') ∧
      dictLookup ("srv-" ++ "ab") st'.running =
        some ⟨"/mcp/" ++ ("srv-" ++ "ab"), 7⟩ ∧
      (∀ k, k ≠ "srv-" ++ "ab" →
        dictLookup k st'.running = dictLookup k (⟨[], []⟩ : GenState Nat).running) ∧
      st'.mounts = (⟨[], []⟩ : GenState Nat).mounts ++ ["/mcp/" ++ ("srv-" ++ "ab")] :=
  generate_success_registers (Except.ok (JValue.obj [])) (fun _ => Except.ok 7) "ab"
    "http://h/" ⟨[], []⟩ (JValue.obj []) 7 rfl rfl

/-- Claim C9: whenever `/generate` fails with an HTTP error - and every
failure carries status 400 - the process state is unchanged: the registry
keeps exactly its entries and no new sub-application is mounted. -/
theorem generate_failure_frame {MCP : Type} (c : GenCall MCP) (st : GenState MCP)
    (err : HTTPError)
    (h : generate c.fetchResult c.buildMCP c.tokenHex c.requestBaseUrl st =
      Except.error err) :
    err.status = 400 ∧ runCall c st = st := by
  refine ⟨?_, by unfold runCall; rw [h]⟩
  cases hf : c.fetchResult with
  | error e =>
    simp only [generate, hf] at h
    injection h with h'
    rw [← h']
  | ok spec =>
    cases hb : c.buildMCP spec with
    | error e =>
      simp only [generate, hf, hb] at h
      injection h with h'
      rw [← h']
    | ok mcp =>
      simp only [generate, hf, hb] at h
      exact Except.noConfusion h

/-- Witness for claim C9: a concrete failed fetch has status 400 and
leaves the empty state empty. -/
theorem generate_failure_frame_witness :
    (⟨400, "Failed to fetch OpenAPI: boom"⟩ : HTTPError).status = 400 ∧
    runCall (⟨Except.error "boom", fun _ => Except.ok 0, "00", "http://h/"⟩ : GenCall Nat)
        ⟨[], []⟩ =
      (⟨[], []⟩ : GenState Nat) :=
  generate_failure_frame ⟨Except.error "boom", fun _ => Except.ok 0, "00", "http://h/"⟩
    ⟨[], []⟩ ⟨400, "Failed to fetch OpenAPI: boom"⟩ rfl

/-- A first `/generate` call whose random token comes out as `deadbeef`. -/
def repeatCall1 : GenCall Nat :=
  ⟨Except.ok (JValue.obj []), fun _ => Except.ok 1, "deadbeef", "http://h/"⟩

/-- A second `/generate` call for a different spec result (its built
server is the handle `2`), whose random token also comes out as
`deadbeef`: `secrets.token_hex(4)` draws 4 random bytes and `main.py`
never checks the result against `RUNNING_SERVERS`. -/
def repeatCall2 : GenCall Nat :=
  ⟨Except.ok (JValue.obj []), fun _ => Except.ok 2, "deadbeef", "http://h/"⟩

/-- Counterexample to claim C3 as stated: two successful `/generate`
calls both draw the token `deadbeef`, both return the server id
`srv-deadbeef`, and the second call overwrites the first call's
`RUNNING_SERVERS` entry (its `mcp` handle changes from `1` to `2`), so
distinct calls can share a `server_id` and an existing entry can be
overwritten. -/
theorem running_servers_overwrite_cex :
    generate repeatCall1.fetchResult repeatCall1.buildMCP repeatCall1.tokenHex
        repeatCall1.requestBaseUrl ⟨[], []⟩ =
      Except.ok
        (JValue.obj
          [("server_id", JValue.str "srv-deadbeef"),
           ("mcp_url", JValue.str "http://h/mcp/srv-deadbeef/")],
         ⟨[("srv-deadbeef", ⟨"/mcp/srv-deadbeef", 1⟩)], ["/mcp/srv-deadbeef"]⟩) ∧
    generate repeatCall2.fetchResult repeatCall2.buildMCP repeatCall2.tokenHex
        repeatCall2.requestBaseUrl
        ⟨[("srv-deadbeef", ⟨"/mcp/srv-deadbeef", 1⟩)], ["/mcp/srv-deadbeef"]⟩ =
      Except.ok
        (JValue.obj
          [("server_id", JValue.str "srv-deadbeef"),
           ("mcp_url", JValue.str "http://h/mcp/srv-deadbeef/")],
         ⟨[("srv-deadbeef", ⟨"/mcp/srv-deadbeef", 2⟩)],
          ["/mcp/srv-deadbeef", "/mcp/srv-deadbeef"]⟩) :=
  ⟨rfl, rfl⟩

theorem generate_ok_state {MCP : Type} (fetchResult : Except String JValue)
    (buildMCP : JValue → Except String MCP) (tokenHex requestBaseUrl : String)
    (st : GenState MCP) (body : JValue) (st' : GenState MCP)
    (h : generate fetchResult buildMCP tokenHex requestBaseUrl st =
      Except.ok (body, st')) :
    ∃ mcp, st' =
      { running := dictInsert st.running ("srv-" ++ tokenHex)
          ⟨"/mcp/" ++ ("srv-" ++ tokenHex), mcp⟩,
        mounts := st.mounts ++ ["/mcp/" ++ ("srv-" ++ tokenHex)] } := by
  cases hf : fetchResult with
  | error e => simp [generate, hf] at h
  | ok spec =>
    cases hb : buildMCP spec with
    | error e => simp [generate, hf, hb] at h
    | ok mcp =>
      simp only [generate, hf, hb] at h
      have h2 := Except.ok.inj h
      exact ⟨mcp, (congrArg Prod.snd h2).symm⟩

theorem dictLookup_dictInsert_isSome (l : List (String × α)) (k0 k : String) (v : α)
    (h : (dictLookup k l).isSome = true) :
    (dictLookup k (dictInsert l k0 v)).isSome = true := by
  by_cases hk : k = k0
  · subst hk
    rw [dictLookup_dictInsert_self]
    rfl
  · rw [dictLookup_dictInsert_ne l k0 k v hk]
    exact h

theorem runCall_preserves_isSome {MCP : Type} (c : GenCall MCP) (st : GenState MCP)
    (k : String) (h : (dictLookup k st.running).isSome = true) :
    (dictLookup k (runCall c st).running).isSome = true := by
  unfold runCall
  cases hg : generate c.fetchResult c.buildMCP c.tokenHex c.requestBaseUrl st with
  | error e => exact h
  | ok p =>
    obtain ⟨body, st'⟩ := p
    obtain ⟨mcp, hst⟩ := generate_ok_state _ _ _ _ _ _ _ hg
    rw [hst]
    exact dictLookup_dictInsert_isSome st.running ("srv-" ++ c.tokenHex) k _ h

theorem runCalls_preserves_isSome {MCP : Type} (calls : List (GenCall MCP))
    (st : GenState MCP) (k : String) (h : (dictLookup k st.running).isSome = true) :
    (dictLookup k (runCalls calls st).running).isSome = true := by
  induction calls generalizing st with
  | nil => exact h
  | cons c cs ih => exact ih (runCall c st) (runCall_preserves_isSome c st k h)

theorem runCall_preserves_entry {MCP : Type} (c : GenCall MCP) (st : GenState MCP)
    (k : String) (e : ServerEntry MCP) (h : dictLookup k st.running = some e)
    (hk : srvId c ≠ k) : dictLookup k (runCall c st).running = some e := by
  unfold runCall
  cases hg : generate c.fetchResult c.buildMCP c.tokenHex c.requestBaseUrl st with
  | error _ => exact h
  | ok p =>
    obtain ⟨body, st'⟩ := p
    obtain ⟨mcp, hst⟩ := generate_ok_state _ _ _ _ _ _ _ hg
    rw [hst, dictLookup_dictInsert_ne st.running ("srv-" ++ c.tokenHex) k _ (Ne.symm hk)]
    exact h

theorem runCalls_preserves_entry {MCP : Type} (calls : List (GenCall MCP))
    (st : GenState MCP) (k : String) (e : ServerEntry MCP)
    (h : dictLookup k st.running = some e) (hall : ∀ c ∈ calls, srvId c ≠ k) :
    dictLookup k (runCalls calls st).running = some e := by
  induction calls generalizing st with
  | nil => exact h
  | cons c cs ih =>
    exact ih (runCall c st)
      (runCall_preserves_entry c st k e h (hall c (List.mem_cons_self c cs)))
      (fun c' hc' => hall c' (List.mem_cons_of_mem c hc'))

theorem srvId_pairwise_ne {MCP : Type} (calls : List (GenCall MCP))
    (h : (calls.map (fun c => c.tokenHex)).Pairwise (fun a b => a ≠ b)) :
    (calls.map srvId).Pairwise (fun a b => a ≠ b) := by
  rw [List.pairwise_map] at h ⊢
  refine h.imp ?_
  intro a b hab hcontra
  apply hab
  have hd := congrArg String.data hcontra
  simp only [srvId, String.data_append] at hd
  exact String.ext (List.append_cancel_left hd)

/-- Claim C3, amended: the registry invariant holds up to token
freshness.  After any sequence of `/generate` calls (i) no registry entry
is ever removed, (ii) an entry whose id is not re-generated by any of the
calls keeps exactly its value - it is never overwritten or modified - and
(iii) calls whose generated tokens are pairwise distinct produce pairwise
distinct server ids.  As stated the claim fails: `secrets.token_hex(4)`
can repeat, and `main.py` installs `RUNNING_SERVERS[server_id]` without a
freshness check, so a repeated token yields a duplicate `server_id` and
overwrites the earlier entry (`running_servers_overwrite_cex`). -/
theorem running_servers_registry_invariant {MCP : Type} (calls : List (GenCall MCP))
    (st : GenState MCP) :
    (∀ k, (dictLookup k st.running).isSome = true →
      (dictLookup k (runCalls calls st).running).isSome = true) ∧
    (∀ k e, dictLookup k st.running = some e → (∀ c ∈ calls, srvId c ≠ k) →
      dictLookup k (runCalls calls st).running = some e) ∧
    ((calls.map (fun c => c.tokenHex)).Pairwise (fun a b => a ≠ b) →
      (calls.map srvId).Pairwise (fun a b => a ≠ b)) :=
  ⟨fun k h => runCalls_preserves_isSome calls st k h,
   fun k e h hall => runCalls_preserves_entry calls st k e h hall,
   srvId_pairwise_ne calls⟩

/-- Witness for the amended claim C3: a fresh-token call leaves the
pre-existing entry `a` of a concrete registry exactly in place. -/
theorem running_servers_registry_invariant_witness :
    dictLookup "a"
      (runCalls [⟨Except.ok (JValue.obj []), fun _ => Except.ok 5, "00", "http://h/"⟩]
        (⟨[("a", ⟨"/mcp/a", 9⟩)], []⟩ : GenState Nat)).running = some ⟨"/mcp/a", 9⟩ :=
  (running_servers_registry_invariant
      [⟨Except.ok (JValue.obj []), fun _ => Except.ok 5, "00", "http://h/"⟩]
      (⟨[("a", ⟨"/mcp/a", 9⟩)], []⟩ : GenState Nat)).2.1 "a" ⟨"/mcp/a", 9⟩ rfl
    (by
      intro c hc
      rw [List.mem_singleton] at hc
      subst hc
      decide)
